import Mathlib

/-
Verification development for `send_cli_command_to_nfv_inventory.py`.

The script fans one CLI command out to a list of ESXi hosts over SSH with a
bounded thread pool and appends a consolidated report to a text file.  We give
a shallow embedding: the ambient network and filesystem are an explicit
environment record, side effects (socket use, SSH session steps, console
diagnostics) are an explicit event trace, and the thread pool is a small-step
transition system with a worker cap.
-/

namespace SendCli

/-- Observable side effects of one run, in program order.  `sockCreate`,
`sockConnect` and `sockClose` are the raw socket operations available to
`check_port`; `sshConnect`, `sshExec`, `readStdout` and `sshClose` are the
SSH-session operations of `send_command`; `consoleOut` is a line written to
the operator's console. -/
inductive Event where
  | sockCreate : Event
  | sockConnect : String → Nat → Event
  | sockClose : Event
  | sshConnect : String → String → String → Event
  | sshExec : String → String → Event
  | readStdout : String → Event
  | sshClose : Event
  | consoleOut : String → Event
  deriving DecidableEq, Repr

/-- Outcome of `paramiko`'s `SSHClient.connect` for a given host and
credential pair: success, a `socket.timeout`, or any other exception carrying
its message text. -/
inductive ConnectOutcome where
  | ok : ConnectOutcome
  | timeout : ConnectOutcome
  | err : String → ConnectOutcome
  deriving DecidableEq, Repr

/-- Outcome of `exec_command` plus `stdout.readlines()` on a connected
session: the captured stdout and stderr line lists, a `socket.timeout`, or
any other exception carrying its message text. -/
inductive ExecOutcome where
  | ok : List String → List String → ExecOutcome
  | timeout : ExecOutcome
  | err : String → ExecOutcome
  deriving DecidableEq, Repr

/-- The ambient network, fixed for one run: the `connect_ex` errno for each
host and port, and the SSH connect / exec outcomes per host. -/
structure Env where
  connectEx : String → Nat → Int
  sshConnectResult : String → String → String → ConnectOutcome
  execResult : String → String → ExecOutcome

/-- The credentials record parsed from `credentials.json`: a string-keyed
dictionary, looked up at the keys `"username"` and `"password"`. -/
abbrev Credentials : Type := List (String × String)

/-- The text of Python's `str` on a `KeyError` for key `k`, which is the key
wrapped in single quotes. -/
def keyErrorText (k : String) : String :=
  "\x27" ++ k ++ "\x27"

/-- Diagnostic printed when the port-22 probe fails:
`f"The ESXi host {host} is not listening on port 22."`. -/
def portClosedMsg (host : String) : String :=
  "The ESXi host " ++ host ++ " is not listening on port 22."

/-- Diagnostic printed on `socket.timeout`:
`f"Socket timeout when trying to connect to {host}."`. -/
def timeoutMsg (host : String) : String :=
  "Socket timeout when trying to connect to " ++ host ++ "."

/-- Diagnostic printed on any other exception `e`:
`f"Unable to connect to {host} with provided credentials. The host may have
non-standard credentials. Error: {e}"`. -/
def authErrMsg (host msg : String) : String :=
  "Unable to connect to " ++ host ++
    " with provided credentials. The host may have non-standard credentials. Error: " ++ msg

/-- `check_port(host, port)`: creates a TCP socket, calls
`connect_ex((host, port))` and returns `result == 0`.  The trace records the
socket operations actually performed; the function returns without calling
`close` on the socket. -/
def check_port (env : Env) (host : String) (port : Nat) : Bool × List Event :=
  (env.connectEx host port == 0, [Event.sockCreate, Event.sockConnect host port])

/-- `send_command(host, credentials, cli_command)`: probes port 22, then
opens an SSH session under a `with` block (so the session is closed on every
exit path), looks up `credentials["username"]` and `credentials["password"]`
(a missing key raises `KeyError`, caught by the generic handler), connects,
runs the command and returns `stdout.readlines()`.  `socket.timeout` and any
other exception are caught, print a diagnostic and fall through to
`return []`.  Returns the result list and the event trace. -/
def send_command (env : Env) (host : String) (credentials : Credentials)
    (cli_command : String) : List String × List Event :=
  let pc := check_port env host 22
  if !pc.1 then
    ([], pc.2 ++ [Event.consoleOut (portClosedMsg host)])
  else
    match List.lookup "username" credentials with
    | none =>
        ([], pc.2 ++ [Event.sshClose,
          Event.consoleOut (authErrMsg host (keyErrorText "username"))])
    | some u =>
      match List.lookup "password" credentials with
      | none =>
          ([], pc.2 ++ [Event.sshClose,
            Event.consoleOut (authErrMsg host (keyErrorText "password"))])
      | some p =>
        match env.sshConnectResult host u p with
        | ConnectOutcome.timeout =>
            ([], pc.2 ++ [Event.sshConnect host u p, Event.sshClose,
              Event.consoleOut (timeoutMsg host)])
        | ConnectOutcome.err m =>
            ([], pc.2 ++ [Event.sshConnect host u p, Event.sshClose,
              Event.consoleOut (authErrMsg host m)])
        | ConnectOutcome.ok =>
          match env.execResult host cli_command with
          | ExecOutcome.timeout =>
              ([], pc.2 ++ [Event.sshConnect host u p,
                Event.sshExec host cli_command, Event.sshClose,
                Event.consoleOut (timeoutMsg host)])
          | ExecOutcome.err m =>
              ([], pc.2 ++ [Event.sshConnect host u p,
                Event.sshExec host cli_command, Event.sshClose,
                Event.consoleOut (authErrMsg host m)])
          | ExecOutcome.ok outLines _errLines =>
              (outLines, pc.2 ++ [Event.sshConnect host u p,
                Event.sshExec host cli_command, Event.readStdout host,
                Event.sshClose])

/-- The per-host results gathered by the pool, keyed in submission order:
`main` builds `futures = {executor.submit(send_command, host, ...): host for
host in hosts}` and iterates that dict in insertion order, so each occurrence
of a host contributes its own entry at its input position. -/
def dispatch (env : Env) (credentials : Credentials) (cli_command : String)
    (hosts : List String) : List (String × List String) :=
  hosts.map fun h => (h, (send_command env h credentials cli_command).1)

/-- The combined event trace of a run, one `send_command` trace per host
occurrence.  Concurrent interleavings reorder events between hosts but
preserve each event's multiplicity, which is all the theorems below use. -/
def dispatchTrace (env : Env) (credentials : Credentials) (cli_command : String)
    (hosts : List String) : List Event :=
  hosts.flatMap fun h => (send_command env h credentials cli_command).2

/-- The body written by the report loop: for each future in submission order,
`if changes:` write `f'Output from {host}:\n'`, then the output lines
verbatim via `writelines`, then one `'\n'` separator; an empty (falsy) result
writes nothing.  Each element of the list is one chunk passed to the file
object. -/
def reportBody (results : List (String × List String)) : List String :=
  results.flatMap fun hr =>
    if hr.2.isEmpty then []
    else ("Output from " ++ hr.1 ++ ":\n") :: (hr.2 ++ ["\n"])

/-- One full run's report content: the leading
`f"Command run: {cli_command}\n"` echo line followed by the body. -/
def reportRun (cli_command : String) (results : List (String × List String)) :
    List String :=
  ("Command run: " ++ cli_command ++ "\n") :: reportBody results

/-- The filesystem state `main` consumes: the inventory file's raw lines and
the parsed credentials record (`none` models `FileNotFoundError`), plus the
current content of the append-mode report sink `cli_response_text.txt` as the
list of chunks previously written to it. -/
structure World where
  inventory : Option (List String)
  credentials : Option (List (String × String))
  sink : List String

/-- Python's `str.strip()` with no argument: removes leading and trailing
whitespace characters. -/
def pyStrip (s : String) : String :=
  String.mk
    (((s.data.dropWhile Char.isWhitespace).reverse.dropWhile Char.isWhitespace).reverse)

/-- How `main` ends: `sys.exit(code)` or normal completion. -/
inductive MainResult where
  | exited : Nat → MainResult
  | completed : MainResult
  deriving DecidableEq, Repr

/-- `main()` after argument parsing: read the inventory (missing file prints
a message and exits 1), strip each line to get the host list, load the
credentials (missing file prints a message and exits 1), then open the report
sink in append mode, write the command echo line, dispatch every host through
the pool and write the body.  Returns the exit status, the sink's final
content, and the run's event trace. -/
def mainRun (env : Env) (inventory_file cli_command credentials_file : String)
    (w : World) : MainResult × List String × List Event :=
  match w.inventory with
  | none =>
      (MainResult.exited 1, w.sink,
        [Event.consoleOut ("The file " ++ inventory_file ++ " does not exist.")])
  | some rawLines =>
    match w.credentials with
    | none =>
        (MainResult.exited 1, w.sink,
          [Event.consoleOut ("The file " ++ credentials_file ++ " does not exist.")])
    | some creds =>
      let hosts := rawLines.map pyStrip
      (MainResult.completed,
        w.sink ++ reportRun cli_command (dispatch env creds cli_command hosts),
        dispatchTrace env creds cli_command hosts)

/-- Events that reach the network: the TCP connect attempt of the probe and
the SSH connect / exec / stdout-read operations. -/
def Event.isNetwork : Event → Bool
  | Event.sockConnect _ _ => true
  | Event.sshConnect _ _ _ => true
  | Event.sshExec _ _ => true
  | Event.readStdout _ => true
  | _ => false

/-- Events belonging to the SSH handshake or session proper. -/
def Event.isSSHAttempt : Event → Bool
  | Event.sshConnect _ _ _ => true
  | Event.sshExec _ _ => true
  | _ => false

/-- The worker cap of `ThreadPoolExecutor(max_workers=10)` in `main`. -/
def max_workers : Nat := 10

/-- State of the dispatch pool over task indices: tasks not yet started (in
queue order), tasks in flight, tasks completed. -/
structure PoolState where
  pending : List Nat
  running : List Nat
  done : List Nat
  deriving DecidableEq, Repr

/-- Pool state at submission time: one task per host index, none started. -/
def initPool (n : Nat) : PoolState :=
  { pending := List.range n, running := [], done := [] }

/-- Small-step semantics of the bounded pool: a queued task may start when a
worker slot is free (fewer than `cap` in flight), and a running task may
finish, moving to `done`.  No step retries, duplicates or drops a task. -/
inductive PoolStep (cap : Nat) : PoolState → PoolState → Prop
  | start (i : Nat) (rest running done : List Nat)
      (hcap : running.length < cap) :
      PoolStep cap ⟨i :: rest, running, done⟩ ⟨rest, i :: running, done⟩
  | finish (i : Nat) (pending r1 r2 done : List Nat) :
      PoolStep cap ⟨pending, r1 ++ i :: r2, done⟩ ⟨pending, r1 ++ r2, i :: done⟩

/-- Pool states reachable from the initial submission of `n` tasks. -/
inductive PoolReachable (cap n : Nat) : PoolState → Prop
  | init : PoolReachable cap n (initPool n)
  | step {s s' : PoolState} : PoolReachable cap n s → PoolStep cap s s' →
      PoolReachable cap n s'

/-- A network where nothing listens: every `connect_ex` returns a nonzero
errno. -/
def envDown : Env :=
  { connectEx := fun _ _ => 111
    sshConnectResult := fun _ _ _ => ConnectOutcome.ok
    execResult := fun _ _ => ExecOutcome.ok [] [] }

/-- A network where port checks succeed but every SSH connect times out. -/
def envTimeout : Env :=
  { connectEx := fun _ _ => 0
    sshConnectResult := fun _ _ _ => ConnectOutcome.timeout
    execResult := fun _ _ => ExecOutcome.ok [] [] }

/-- A fully healthy network: the command prints two stdout lines and one
stderr line on every host. -/
def envOk : Env :=
  { connectEx := fun _ _ => 0
    sshConnectResult := fun _ _ _ => ConnectOutcome.ok
    execResult := fun _ _ => ExecOutcome.ok ["a\n", "b\n"] ["oops\n"] }

/-- A concrete, well-formed credentials record. -/
def credsW : Credentials := [("username", "root"), ("password", "pw")]

/-- Every trace of `send_command` begins with the probe's two socket events
for this host, and the remainder contains no further TCP connect. -/
theorem send_command_trace_shape (env : Env) (host : String) (creds : Credentials)
    (cmd : String) :
    ∃ tail, ((send_command env host creds cmd).2 =
      Event.sockCreate :: Event.sockConnect host 22 :: tail ∧
      ∀ y q, Event.sockConnect y q ∉ tail) := by
  unfold send_command
  cases hpc : env.connectEx host 22 == 0 with
  | false =>
    exact ⟨[Event.consoleOut (portClosedMsg host)],
      by simp [check_port, hpc], by simp⟩
  | true =>
    cases hu : List.lookup "username" creds with
    | none =>
      exact ⟨[Event.sshClose,
        Event.consoleOut (authErrMsg host (keyErrorText "username"))],
        by simp [check_port, hpc, hu], by simp⟩
    | some u =>
      cases hp : List.lookup "password" creds with
      | none =>
        exact ⟨[Event.sshClose,
          Event.consoleOut (authErrMsg host (keyErrorText "password"))],
          by simp [check_port, hpc, hu, hp], by simp⟩
      | some p =>
        cases hc : env.sshConnectResult host u p with
        | ok =>
          cases he : env.execResult host cmd with
          | ok o e =>
            exact ⟨[Event.sshConnect host u p, Event.sshExec host cmd,
              Event.readStdout host, Event.sshClose],
              by simp [check_port, hpc, hu, hp, hc, he], by simp⟩
          | timeout =>
            exact ⟨[Event.sshConnect host u p, Event.sshExec host cmd,
              Event.sshClose, Event.consoleOut (timeoutMsg host)],
              by simp [check_port, hpc, hu, hp, hc, he], by simp⟩
          | err m =>
            exact ⟨[Event.sshConnect host u p, Event.sshExec host cmd,
              Event.sshClose, Event.consoleOut (authErrMsg host m)],
              by simp [check_port, hpc, hu, hp, hc, he], by simp⟩
        | timeout =>
          exact ⟨[Event.sshConnect host u p, Event.sshClose,
            Event.consoleOut (timeoutMsg host)],
            by simp [check_port, hpc, hu, hp, hc], by simp⟩
        | err m =>
          exact ⟨[Event.sshConnect host u p, Event.sshClose,
            Event.consoleOut (authErrMsg host m)],
            by simp [check_port, hpc, hu, hp, hc], by simp⟩

/-- Each call of `send_command` performs exactly one TCP connect, and it is
aimed at its own host on port 22. -/
theorem count_sockConnect_send (env : Env) (host x : String) (creds : Credentials)
    (cmd : String) :
    ((send_command env host creds cmd).2.count (Event.sockConnect x 22)) =
      if host = x then 1 else 0 := by
  obtain ⟨tail, htr, htail⟩ := send_command_trace_shape env host creds cmd
  have h0 : tail.count (Event.sockConnect x 22) = 0 :=
    List.count_eq_zero.2 (htail x 22)
  by_cases hhx : host = x
  · subst hhx
    rw [htr]
    simp [List.count_cons, h0]
  · rw [htr]
    simp [List.count_cons, h0, hhx, Ne.symm hhx]

/-- The timeout diagnostic and the port-closed diagnostic are distinct for
every host: their lengths differ by one character. -/
theorem timeoutMsg_ne_portClosedMsg (host : String) :
    timeoutMsg host ≠ portClosedMsg host := by
  intro h
  have hlen := congrArg String.length h
  simp only [timeoutMsg, portClosedMsg, String.length_append] at hlen
  have h1 : ("Socket timeout when trying to connect to " : String).length = 41 := rfl
  have h2 : ("." : String).length = 1 := rfl
  have h3 : ("The ESXi host " : String).length = 14 := rfl
  have h4 : (" is not listening on port 22." : String).length = 29 := rfl
  rw [h1, h2, h3, h4] at hlen
  omega

/-- The report body equals the blocks of the non-empty results, kept in
input order. -/
theorem reportBody_eq_filter (results : List (String × List String)) :
    reportBody results = (results.filter fun hr => !hr.2.isEmpty).flatMap
      (fun hr => ("Output from " ++ hr.1 ++ ":\n") :: (hr.2 ++ ["\n"])) := by
  induction results with
  | nil => rfl
  | cons hd tl ih =>
    simp only [reportBody, List.flatMap_cons, List.filter_cons] at ih ⊢
    cases h2 : hd.2 with
    | nil => simpa [h2] using ih
    | cons a as => simpa [h2] using ih

/-- C1: the report of one run is exactly one leading command-echo line, then,
for each host in submission order whose result is non-empty, a header naming
that host, its output lines verbatim, and one blank separator; hosts with
empty results are omitted, and written hosts keep input-list order.  On the
spec's example hosts `[A, B, C]` with results `{A: [x], B: [], C: [y, z]}`
the body is exactly A's block then C's block. -/
theorem c1_report_structure (cmd : String) (results : List (String × List String)) :
    reportRun cmd results =
      ("Command run: " ++ cmd ++ "\n") ::
        (results.filter fun hr => !hr.2.isEmpty).flatMap
          (fun hr => ("Output from " ++ hr.1 ++ ":\n") :: (hr.2 ++ ["\n"])) ∧
    reportRun "net-stats -l" [("A", ["x"]), ("B", []), ("C", ["y", "z"])] =
      ["Command run: net-stats -l\n", "Output from A:\n", "x", "\n",
        "Output from C:\n", "y", "z", "\n"] := by
  exact ⟨by rw [reportRun, reportBody_eq_filter], rfl⟩

/-- C6 (amended): `check_port` returns exactly the boolean `connect_ex == 0`
and its side effects are exactly one socket creation and one TCP connect
attempt — in particular it never closes the socket it opened. -/
theorem c6_check_port_behaviour (env : Env) (host : String) (port : Nat) :
    (check_port env host port).1 = (env.connectEx host port == 0) ∧
    (check_port env host port).2 = [Event.sockCreate, Event.sockConnect host port] :=
  ⟨rfl, rfl⟩

/-- C6 counterexample: on a healthy network the probe of host `10.0.0.5`
port 22 succeeds, yet the trace of `check_port` contains no `sockClose` —
the claim that the connection is closed immediately is false: the code never
calls `close` on the probe socket. -/
theorem c6_counterexample :
    (check_port envOk "10.0.0.5" 22).1 = true ∧
    ((check_port envOk "10.0.0.5" 22).2.any fun e => e == Event.sockClose) = false :=
  ⟨rfl, rfl⟩

/-- C2: when the port-22 probe fails, `send_command` prints the diagnostic
naming the host, returns the empty list, and its trace contains no SSH
handshake or session event at all (no session is opened, authentication is
never invoked). -/
theorem c2_port_closed_skips_ssh (env : Env) (creds : Credentials) (cmd host : String)
    (hclosed : (env.connectEx host 22 == 0) = false) :
    (send_command env host creds cmd).1 = [] ∧
    Event.consoleOut (portClosedMsg host) ∈ (send_command env host creds cmd).2 ∧
    ∀ e ∈ (send_command env host creds cmd).2, e.isSSHAttempt = false := by
  unfold send_command
  simp [check_port, hclosed, Event.isSSHAttempt]

/-- C2 witness: on a network with nothing listening, the host `10.0.0.5`
yields the closed-port diagnostic, an empty result, and no SSH event. -/
theorem c2_witness :
    (send_command envDown "10.0.0.5" credsW "ls").1 = [] ∧
    Event.consoleOut (portClosedMsg "10.0.0.5") ∈
      (send_command envDown "10.0.0.5" credsW "ls").2 ∧
    ∀ e ∈ (send_command envDown "10.0.0.5" credsW "ls").2, e.isSSHAttempt = false :=
  c2_port_closed_skips_ssh envDown credsW "ls" "10.0.0.5" rfl

/-- C3: per-host failures during execution are local and non-fatal: a
connection timeout prints a diagnostic distinct from the port-closed one and
yields `[]`; any other connect or command failure prints a diagnostic
containing the underlying error text and yields `[]`; on every path
`send_command` returns normally (either `[]` or the captured stdout), and a
failing host leaves every other entry of the batch unchanged. -/
theorem c3_local_failures (env : Env) (creds : Credentials) (cmd host u p m : String)
    (hopen : (env.connectEx host 22 == 0) = true)
    (hu : List.lookup "username" creds = some u)
    (hp : List.lookup "password" creds = some p) :
    (env.sshConnectResult host u p = ConnectOutcome.timeout →
      (send_command env host creds cmd).1 = [] ∧
      Event.consoleOut (timeoutMsg host) ∈ (send_command env host creds cmd).2 ∧
      timeoutMsg host ≠ portClosedMsg host) ∧
    (env.sshConnectResult host u p = ConnectOutcome.err m →
      (send_command env host creds cmd).1 = [] ∧
      Event.consoleOut (authErrMsg host m) ∈ (send_command env host creds cmd).2 ∧
      ∃ pre, authErrMsg host m = pre ++ m) ∧
    (env.sshConnectResult host u p = ConnectOutcome.ok →
      env.execResult host cmd = ExecOutcome.err m →
      (send_command env host creds cmd).1 = [] ∧
      Event.consoleOut (authErrMsg host m) ∈ (send_command env host creds cmd).2) ∧
    ((send_command env host creds cmd).1 = [] ∨
      ∃ outLines errLines, env.execResult host cmd = ExecOutcome.ok outLines errLines ∧
        (send_command env host creds cmd).1 = outLines) ∧
    ∀ before after, dispatch env creds cmd (before ++ host :: after) =
      dispatch env creds cmd before ++
        (host, (send_command env host creds cmd).1) :: dispatch env creds cmd after := by
  refine ⟨?_, ?_, ?_, ?_, ?_⟩
  · intro hc
    refine ⟨?_, ?_, timeoutMsg_ne_portClosedMsg host⟩ <;>
      simp [send_command, check_port, hopen, hu, hp, hc]
  · intro hc
    refine ⟨?_, ?_,
      ⟨"Unable to connect to " ++ host ++
        " with provided credentials. The host may have non-standard credentials. Error: ",
        rfl⟩⟩ <;>
      simp [send_command, check_port, hopen, hu, hp, hc]
  · intro hc he
    constructor <;> simp [send_command, check_port, hopen, hu, hp, hc, he]
  · cases hc : env.sshConnectResult host u p with
    | ok =>
      cases he : env.execResult host cmd with
      | ok o e =>
        exact Or.inr ⟨o, e, rfl,
          by simp [send_command, check_port, hopen, hu, hp, hc, he]⟩
      | timeout =>
        exact Or.inl (by simp [send_command, check_port, hopen, hu, hp, hc, he])
      | err mm =>
        exact Or.inl (by simp [send_command, check_port, hopen, hu, hp, hc, he])
    | timeout => exact Or.inl (by simp [send_command, check_port, hopen, hu, hp, hc])
    | err mm => exact Or.inl (by simp [send_command, check_port, hopen, hu, hp, hc])
  · intro before after
    simp [dispatch]

/-- C3 witness: on a network where every SSH connect times out, host `h1`
yields an empty result and the timeout diagnostic, which differs from the
port-closed diagnostic. -/
theorem c3_witness :
    (send_command envTimeout "h1" credsW "ls").1 = [] ∧
    Event.consoleOut (timeoutMsg "h1") ∈ (send_command envTimeout "h1" credsW "ls").2 ∧
    timeoutMsg "h1" ≠ portClosedMsg "h1" :=
  (c3_local_failures envTimeout credsW "ls" "h1" "root" "pw" "x" rfl rfl rfl).1 rfl

/-- C4: a missing inventory file or missing credentials file makes the whole
run exit with status 1, leaving the report sink untouched and performing no
network operation at all. -/
theorem c4_missing_files_fatal (env : Env) (invFile cmd credFile : String) (w : World)
    (hmiss : w.inventory = none ∨ w.credentials = none) :
    (mainRun env invFile cmd credFile w).1 = MainResult.exited 1 ∧
    (mainRun env invFile cmd credFile w).2.1 = w.sink ∧
    ∀ e ∈ (mainRun env invFile cmd credFile w).2.2, e.isNetwork = false := by
  rcases hmiss with hmiss | hmiss
  · refine ⟨?_, ?_, ?_⟩ <;> simp [mainRun, hmiss, Event.isNetwork]
  · cases hinv : w.inventory with
    | none => refine ⟨?_, ?_, ?_⟩ <;> simp [mainRun, hinv, Event.isNetwork]
    | some ls => refine ⟨?_, ?_, ?_⟩ <;> simp [mainRun, hinv, hmiss, Event.isNetwork]

/-- A world whose inventory file is absent. -/
def worldMissingInv : World :=
  { inventory := none, credentials := some credsW, sink := ["old\n"] }

/-- C4 witness: with the inventory file absent, the run exits 1, the sink
keeps its prior content, and the trace holds no network event. -/
theorem c4_witness :
    (mainRun envOk "hosts.txt" "ls" "credentials.json" worldMissingInv).1 =
      MainResult.exited 1 ∧
    (mainRun envOk "hosts.txt" "ls" "credentials.json" worldMissingInv).2.1 =
      worldMissingInv.sink ∧
    ∀ e ∈ (mainRun envOk "hosts.txt" "ls" "credentials.json" worldMissingInv).2.2,
      e.isNetwork = false :=
  c4_missing_files_fatal envOk "hosts.txt" "ls" "credentials.json" worldMissingInv
    (Or.inl rfl)

/-- C5: duplicates are never deduplicated: the batch performs exactly one
probe (hence one executor invocation) per occurrence of a host in the input
list, the result list has one entry per occurrence, and the report body holds
one block per occurrence whose own result is non-empty, in input order. -/
theorem c5_duplicates_independent (env : Env) (creds : Credentials) (cmd h : String)
    (hosts : List String) :
    (dispatchTrace env creds cmd hosts).count (Event.sockConnect h 22) = hosts.count h ∧
    (dispatch env creds cmd hosts).length = hosts.length ∧
    reportBody (dispatch env creds cmd hosts) =
      (hosts.filter fun x => !(send_command env x creds cmd).1.isEmpty).flatMap
        (fun x => ("Output from " ++ x ++ ":\n") ::
          ((send_command env x creds cmd).1 ++ ["\n"])) := by
  refine ⟨?_, by simp [dispatch], ?_⟩
  · induction hosts with
    | nil => simp [dispatchTrace]
    | cons hd tl ih =>
      have hstep := count_sockConnect_send env hd h creds cmd
      simp only [dispatchTrace] at ih ⊢
      rw [List.flatMap_cons, List.count_append, hstep, ih, List.count_cons]
      by_cases hh : hd = h
      · subst hh
        simp
        omega
      · simp [hh, fun hx : h = hd => hh hx.symm]
  · induction hosts with
    | nil => rfl
    | cons hd tl ih =>
      simp only [dispatch, List.map_cons, reportBody, List.flatMap_cons,
        List.filter_cons] at ih ⊢
      cases hres : (send_command env hd creds cmd).1 with
      | nil => simpa [hres] using ih
      | cons a as => simpa [hres] using ih

/-- C9: on the success path the result of `send_command` is exactly the
stdout line list; the stderr lines (`errLines`, arbitrary here) are never
read and cannot influence the result or the report. -/
theorem c9_stdout_only (env : Env) (creds : Credentials) (cmd host u p : String)
    (outLines errLines : List String)
    (hopen : (env.connectEx host 22 == 0) = true)
    (hu : List.lookup "username" creds = some u)
    (hp : List.lookup "password" creds = some p)
    (hc : env.sshConnectResult host u p = ConnectOutcome.ok)
    (he : env.execResult host cmd = ExecOutcome.ok outLines errLines) :
    (send_command env host creds cmd).1 = outLines := by
  simp [send_command, check_port, hopen, hu, hp, hc, he]

/-- C9 witness: on a healthy network whose command writes two stdout lines
and one stderr line, the result is exactly the two stdout lines. -/
theorem c9_witness :
    (send_command envOk "h1" credsW "ls").1 = ["a\n", "b\n"] :=
  c9_stdout_only envOk credsW "ls" "h1" "root" "pw" ["a\n", "b\n"] ["oops\n"]
    rfl rfl rfl rfl rfl

/-- C7: the report sink is append-only: one run appends exactly its own
report to the prior content, and a second identical run appends the same
content once more, leaving the first run's output in place as a prefix. -/
theorem c7_append_only (env : Env) (invFile cmd credFile : String) (w : World)
    (ls : List String) (creds : Credentials)
    (hinv : w.inventory = some ls) (hcred : w.credentials = some creds) :
    (mainRun env invFile cmd credFile w).2.1 =
      w.sink ++ reportRun cmd (dispatch env creds cmd (ls.map pyStrip)) ∧
    (mainRun env invFile cmd credFile
        { inventory := w.inventory, credentials := w.credentials,
          sink := (mainRun env invFile cmd credFile w).2.1 }).2.1 =
      w.sink ++ reportRun cmd (dispatch env creds cmd (ls.map pyStrip)) ++
        reportRun cmd (dispatch env creds cmd (ls.map pyStrip)) := by
  constructor <;> simp [mainRun, hinv, hcred]

/-- A complete world for whole-run witnesses: one host, valid files, some
earlier content already in the sink. -/
def worldW : World :=
  { inventory := some ["h1"], credentials := some credsW, sink := ["earlier\n"] }

/-- C7 witness: a concrete double run on `worldW` grows the sink by exactly
one report per run and keeps the earlier content in front. -/
theorem c7_witness :
    (mainRun envOk "hosts.txt" "ls" "credentials.json" worldW).2.1 =
      worldW.sink ++
        reportRun "ls" (dispatch envOk credsW "ls" (["h1"].map pyStrip)) ∧
    (mainRun envOk "hosts.txt" "ls" "credentials.json"
        { inventory := worldW.inventory, credentials := worldW.credentials,
          sink := (mainRun envOk "hosts.txt" "ls" "credentials.json" worldW).2.1 }).2.1 =
      worldW.sink ++
        reportRun "ls" (dispatch envOk credsW "ls" (["h1"].map pyStrip)) ++
        reportRun "ls" (dispatch envOk credsW "ls" (["h1"].map pyStrip)) :=
  c7_append_only envOk "hosts.txt" "ls" "credentials.json" worldW ["h1"] credsW rfl rfl

/-- Invariant of the pool semantics: the in-flight set never exceeds the
cap, and the pending, running and done lists together always hold exactly
the originally submitted tasks. -/
theorem poolReachable_inv (cap n : Nat) (s : PoolState)
    (h : PoolReachable cap n s) :
    s.running.length ≤ cap ∧
    List.Perm (s.pending ++ s.running ++ s.done) (List.range n) := by
  induction h with
  | init => simp [initPool]
  | step hr hstep ih =>
    cases hstep with
    | start i rest running done hcap =>
      constructor
      · exact hcap
      · have ih2 : List.Perm (i :: ((rest ++ running) ++ done)) (List.range n) := ih.2
        rw [List.append_assoc] at ih2
        have e1 : (rest ++ i :: running) ++ done = rest ++ i :: (running ++ done) := by
          simp [List.append_assoc]
        rw [e1]
        exact List.Perm.trans List.perm_middle ih2
    | finish i pending r1 r2 done =>
      constructor
      · have hlen := ih.1
        simp only [List.length_append, List.length_cons] at hlen ⊢
        omega
      · have ih2 : List.Perm ((pending ++ (r1 ++ i :: r2)) ++ done) (List.range n) :=
          ih.2
        have e1 : (pending ++ (r1 ++ i :: r2)) ++ done =
            pending ++ (r1 ++ i :: (r2 ++ done)) := by
          simp [List.append_assoc]
        rw [e1] at ih2
        have h4 : List.Perm (pending ++ (r1 ++ i :: (r2 ++ done)))
            (pending ++ (i :: (r1 ++ (r2 ++ done)))) :=
          List.Perm.append_left pending List.perm_middle
        have h5 : List.Perm (pending ++ (i :: (r1 ++ (r2 ++ done))))
            (i :: (pending ++ (r1 ++ (r2 ++ done)))) := List.perm_middle
        have h6 : List.Perm ((pending ++ (r1 ++ r2)) ++ (i :: done))
            (i :: ((pending ++ (r1 ++ r2)) ++ done)) := List.perm_middle
        have e3 : (pending ++ (r1 ++ r2)) ++ done =
            pending ++ (r1 ++ (r2 ++ done)) := by
          simp [List.append_assoc]
        rw [e3] at h6
        exact h6.trans (h5.symm.trans (h4.symm.trans ih2))

/-- C8: under the pool semantics with the cap `max_workers = 10` of `main`,
every reachable state of a batch of one task per input host has at most 10
tasks in flight, and the run can only end (the join barrier: empty queue and
nothing in flight) with every submitted task completed exactly once — none
retried, none dropped. -/
theorem c8_pool_bounded_join (hosts : List String) (s : PoolState)
    (h : PoolReachable max_workers hosts.length s) :
    s.running.length ≤ max_workers ∧
    (s.pending = [] → s.running = [] →
      List.Perm s.done (List.range hosts.length)) := by
  have hinv := poolReachable_inv max_workers hosts.length s h
  refine ⟨hinv.1, ?_⟩
  intro hp hr
  have hperm := hinv.2
  rw [hp, hr] at hperm
  simpa using hperm

/-- C8 witness: after submitting three tasks and starting the first, the
pool state `⟨[1, 2], [0], []⟩` is reachable, within the cap, and not yet at
the join barrier. -/
theorem c8_witness :
    (PoolState.mk [1, 2] [0] []).running.length ≤ max_workers ∧
    ((PoolState.mk [1, 2] [0] []).pending = [] →
      (PoolState.mk [1, 2] [0] []).running = [] →
      List.Perm (PoolState.mk [1, 2] [0] []).done (List.range 3)) :=
  c8_pool_bounded_join ["h1", "h2", "h3"] (PoolState.mk [1, 2] [0] [])
    (PoolReachable.step PoolReachable.init (PoolStep.start 0 [1, 2] [] [] (by decide)))

/-- C10: a credentials record lacking the `"username"` key (or having it but
lacking `"password"`) does not abort the run: `main` still completes, each
port-open host's key lookup failure is caught like any other per-host
failure, that host's result is empty, and a diagnostic naming the host with
the `KeyError` text appears on the console. -/
theorem c10_missing_cred_key (env : Env) (invFile cmd credFile host : String)
    (w : World) (ls : List String) (creds : Credentials)
    (hinv : w.inventory = some ls) (hcred : w.credentials = some creds)
    (hopen : (env.connectEx host 22 == 0) = true)
    (hmem : host ∈ ls.map pyStrip)
    (hmiss : List.lookup "username" creds = none ∨
      (∃ u, List.lookup "username" creds = some u ∧
        List.lookup "password" creds = none)) :
    (mainRun env invFile cmd credFile w).1 = MainResult.completed ∧
    (send_command env host creds cmd).1 = [] ∧
    ∃ k, (k = "username" ∨ k = "password") ∧
      Event.consoleOut (authErrMsg host (keyErrorText k)) ∈
        (mainRun env invFile cmd credFile w).2.2 := by
  refine ⟨by simp [mainRun, hinv, hcred], ?_, ?_⟩
  · rcases hmiss with hu | ⟨u, hu, hp⟩
    · simp [send_command, check_port, hopen, hu]
    · simp [send_command, check_port, hopen, hu, hp]
  · have htr : (mainRun env invFile cmd credFile w).2.2 =
        dispatchTrace env creds cmd (ls.map pyStrip) := by
      simp [mainRun, hinv, hcred]
    rw [htr]
    rcases hmiss with hu | ⟨u, hu, hp⟩
    · refine ⟨"username", Or.inl rfl, ?_⟩
      refine List.mem_flatMap.2 ⟨host, hmem, ?_⟩
      simp [send_command, check_port, hopen, hu]
    · refine ⟨"password", Or.inr rfl, ?_⟩
      refine List.mem_flatMap.2 ⟨host, hmem, ?_⟩
      simp [send_command, check_port, hopen, hu, hp]

/-- A credentials record with no `"username"` key. -/
def credsNoUser : Credentials := [("password", "pw")]

/-- A world whose credentials file parses but lacks the `"username"` key. -/
def worldNoUser : World :=
  { inventory := some ["h1"], credentials := some credsNoUser, sink := [] }

/-- C10 witness: with credentials `[("password", "pw")]` and reachable host
`h1`, the run completes, `h1` gets an empty result, and the console shows
the `KeyError`-style diagnostic for the missing key. -/
theorem c10_witness :
    (mainRun envOk "hosts.txt" "ls" "credentials.json" worldNoUser).1 =
      MainResult.completed ∧
    (send_command envOk "h1" credsNoUser "ls").1 = [] ∧
    ∃ k, (k = "username" ∨ k = "password") ∧
      Event.consoleOut (authErrMsg "h1" (keyErrorText k)) ∈
        (mainRun envOk "hosts.txt" "ls" "credentials.json" worldNoUser).2.2 :=
  c10_missing_cred_key envOk "hosts.txt" "ls" "credentials.json" "h1" worldNoUser
    ["h1"] credsNoUser rfl rfl rfl (by decide) (Or.inl rfl)

end SendCli
